import Mathlib

/-!
Verification of the requirement-coverage tracker (simple_spec.py, conftest.py,
simple_reports.py, check_coverage.py) against its design specification.

The Python code is shallowly embedded: dictionaries become insertion-ordered
association lists (`List (String × α)`), Python string primitives are modelled
over `List Char`, machine-independent integers are `Nat`, and the 1-decimal
percentages are exact rationals rounded with Python's banker rounding.
-/

namespace SimpleCoverage

/-- Test outcome as produced by conftest.py line 66:
`outcome = "PASS" if call.excinfo is None else "FAIL"` (only these two values exist). -/
inductive Outcome
  | PASS
  | FAIL
deriving DecidableEq

/- ---------- Python string primitives, modelled over List Char ---------- -/

/-- Does `pre` occur at the head of `s`? Models Python `str.startswith`. -/
def listStartsWith : List Char → List Char → Bool
  | [], _ => true
  | _ :: _, [] => false
  | a :: as, b :: bs => a = b && listStartsWith as bs

/-- Does `sub` occur anywhere in `s`? Models Python's `sub in s`. -/
def containsSub (sub : List Char) : List Char → Bool
  | [] => sub.isEmpty
  | c :: rest => listStartsWith sub (c :: rest) || containsSub sub rest

/-- Split on every non-overlapping occurrence of `sep`, left to right, with
explicit fuel (always called with fuel larger than the string length, so the
fuel-exhausted branch is unreachable). Models Python `str.split(sep)` for a
non-empty separator. -/
def splitGo (sep : List Char) : Nat → List Char → List Char → List (List Char)
  | _, acc, [] => [acc.reverse]
  | 0, acc, s => [acc.reverse ++ s]
  | fuel + 1, acc, c :: rest =>
    if listStartsWith sep (c :: rest) then
      acc.reverse :: splitGo sep fuel [] (List.drop sep.length (c :: rest))
    else
      splitGo sep fuel (c :: acc) rest

/-- Python `s.split(sep)` for a non-empty separator. -/
def pySplit (s sep : String) : List String :=
  (splitGo sep.data (s.data.length + 1) [] s.data).map (fun cs => ⟨cs⟩)

/-- Python `sub in s`. -/
def pyContains (s sub : String) : Bool :=
  containsSub sub.data s.data

/-- Python `s.strip()` (whitespace removed from both ends). -/
def pyTrim (s : String) : String :=
  ⟨((s.data.dropWhile Char.isWhitespace).reverse.dropWhile Char.isWhitespace).reverse⟩

/-- Python `s.startswith(pre)`. -/
def pyStartsWith (s pre : String) : Bool :=
  listStartsWith pre.data s.data

/-- Python `s[n:]`. -/
def pyDrop (s : String) (n : Nat) : String :=
  ⟨s.data.drop n⟩

/-- Python `s.lower()` (ASCII case folding suffices for the inputs involved). -/
def pyLower (s : String) : String :=
  ⟨s.data.map Char.toLower⟩

/-- Python `s.replace(pat, rep)` for a non-empty pattern: equivalent to
`rep.join(s.split(pat))`. -/
def pyReplace (s pat rep : String) : String :=
  ⟨List.intercalate rep.data (splitGo pat.data (s.data.length + 1) [] s.data)⟩

/-- Python truthiness of an optional string variable that starts as `None`:
`not response` is true when the variable is `None` or the empty string. -/
def pyFalsy : Option String → Bool
  | none => true
  | some s => s.isEmpty

/- ---------- Failure extractor (conftest.py pytest_runtest_makereport, lines 136-152) ---------- -/

/-- Guard of the assert branch of conftest.py line 140:
`' == ' in line and 'assert' in line.lower()`. -/
def assertEqCond (line : String) : Bool :=
  pyContains line " == " && pyContains (pyLower line) "assert"

/-- One iteration of the line scan of conftest.py lines 139-152; the accumulator
holds the current `(response, expected)` pair, each `none` until assigned. -/
def scanStep (acc : Option String × Option String) (line : String) :
    Option String × Option String :=
  if assertEqCond line then
    let parts := pySplit line " == "
    if parts.length = 2 then
      (some (pyTrim (pyReplace (parts.getD 0 "") "assert" "")),
       some (pyTrim (parts.getD 1 "")))
    else acc
  else if pyStartsWith (pyTrim line) "+" then
    if pyFalsy acc.1 then (some (pyTrim (pyDrop (pyTrim line) 1)), acc.2) else acc
  else if pyStartsWith (pyTrim line) "-" then
    if pyFalsy acc.2 then (acc.1, some (pyTrim (pyDrop (pyTrim line) 1))) else acc
  else acc

/-- The response/expected extraction of conftest.py lines 133-152: both start as
`None`; if `'assert' in error_msg`, the message is split into lines and scanned. -/
def extractRE (error_msg : String) : Option String × Option String :=
  if pyContains error_msg "assert" then
    (pySplit error_msg "\n").foldl scanStep (none, none)
  else (none, none)

/- ---------- Insertion-ordered dictionaries (Python dict) ---------- -/

/-- Lookup in an insertion-ordered association list (Python `d[k]` / `d.get(k)`). -/
def dlookup (k : String) : List (String × α) → Option α
  | [] => none
  | p :: rest => if p.1 = k then some p.2 else dlookup k rest

/-- Python `d[k] = v`: an existing key keeps its position and gets the new value,
a new key is appended at the end. -/
def dictInsert (k : String) (v : α) : List (String × α) → List (String × α)
  | [] => [(k, v)]
  | p :: rest => if p.1 = k then (k, v) :: rest else p :: dictInsert k v rest

/-- Python `d[k].append(v)` on a dict of lists (the key is assumed present;
on a missing key this is the identity, callers guard with `k in d`). -/
def dictAppend (k : String) (v : α) : List (String × List α) → List (String × List α)
  | [] => []
  | p :: rest => if p.1 = k then (p.1, p.2 ++ [v]) :: rest else p :: dictAppend k v rest

/-- Python dict-literal / dict-comprehension construction from a key-value
sequence: later occurrences of a key silently overwrite earlier ones. -/
def dictOfList (l : List (String × α)) : List (String × α) :=
  l.foldl (fun acc p => dictInsert p.1 p.2 acc) []

/- ---------- Specification Registry (simple_spec.py) ---------- -/

/-- One value of the REQUIREMENTS dict of simple_spec.py: description, priority,
and the optional nested features dict (`'features' in req_data` is modelled by
the Option). -/
structure ReqData where
  description : String
  priority : String
  features : Option (List (String × String))
deriving DecidableEq

/-- The REQUIREMENTS dict of simple_spec.py lines 19-55, in declaration order. -/
def REQUIREMENTS : List (String × ReqData) :=
  [("REQ-1",
    { description := "reverse_string returns the reversed string"
      priority := "high"
      features := some
        [("F1.1", "handles ASCII characters"),
         ("F1.2", "handles Unicode characters"),
         ("F1.3", "handles emojis"),
         ("F1.4", "handles whitespace and special characters")] }),
   ("REQ-2",
    { description := "reversing twice returns the original string"
      priority := "high"
      features := some
        [("F2.1", "idempotency with ASCII strings"),
         ("F2.2", "idempotency with Unicode strings"),
         ("F2.3", "idempotency with mixed content")] }),
   ("REQ-3",
    { description := "reverse_string handles empty strings"
      priority := "medium"
      features := some [("F3.1", "empty string returns empty string")] }),
   ("REQ-4",
    { description := "reverse_string preserves string length"
      priority := "high"
      features := some
        [("F4.1", "length preserved for ASCII"),
         ("F4.2", "length preserved for Unicode"),
         ("F4.3", "length preserved for empty strings")] })]

/-- One value of the flattened feature map built by get_all_features. -/
structure FeatEntry where
  description : String
  requirement : String
deriving DecidableEq

/-- simple_spec.py lines 6-16: flatten the per-requirement feature dicts into one
dict keyed by feature id (a later declaration of the same feature id overwrites
an earlier one, exactly as Python dict assignment does). Parameterised by the
registry so that registry inputs other than the shipped REQUIREMENTS can be
considered. -/
def get_all_features (reqs : List (String × ReqData)) : List (String × FeatEntry) :=
  reqs.foldl
    (fun all_features p =>
      match p.2.features with
      | none => all_features
      | some feats =>
        feats.foldl (fun acc q => dictInsert q.1 ⟨q.2, p.1⟩ acc) all_features)
    []

/- ---------- Test-outcome events (conftest.py pytest_runtest_makereport) ---------- -/

/-- The captured input arguments of a failing test: either the key-value mapping
(from `item.callspec.params` or the source-text regex), or the string sentinel
`'Not captured'` stored when the mapping is empty. -/
inductive StimuliVal
  | captured (params : List (String × String))
  | notCaptured
deriving DecidableEq

/-- The `test_info['failure']` dict built in conftest.py lines 154-160. -/
structure FailureInfo where
  stimuli : StimuliVal
  response : String
  expected : String
  error_message : String
  error_type : String
deriving DecidableEq

/-- The `test_info` dict built in conftest.py lines 68-160 and appended to the
requirement ledger (conftest.py always sets `hypothesis_examples`, so the
defensive `test.get('hypothesis_examples', 1)` reads in the report generators
always find the key). -/
structure TestInfo where
  test : String
  outcome : Outcome
  hypothesisExamples : Nat
  failure : Option FailureInfo
deriving DecidableEq

/-- The `feature_test_info` dict built in conftest.py lines 172-176. -/
structure FeatTestInfo where
  test : String
  outcome : Outcome
  examples : Nat
deriving DecidableEq

/-- The exception info of a failing call (`call.excinfo`): the stringified
exception value and its type name. -/
structure Excinfo where
  message : String
  typename : String
deriving DecidableEq

/-- The test item as seen by pytest_runtest_makereport:
`requirements = none` models a function without the `_requirements` attribute
(test not decorated with @requirement), `featureTags = none` one without
`_features`. `hypothesis = none` models a non-Hypothesis test;
`hypothesis = some (some n)` a Hypothesis test whose `max_examples` setting one
of the three lookup methods of conftest.py lines 84-93 yields; and
`hypothesis = some none` a Hypothesis test where every lookup fails and the
`except` fallback of lines 96-98 fires. -/
structure Item where
  nodeid : String
  requirements : Option (List String)
  featureTags : Option (List String)
  hypothesis : Option (Option Nat)
deriving DecidableEq

/-- The `hypothesis_examples` value computed in conftest.py lines 73-100:
1 for a plain test, the readable `max_examples` for a Hypothesis test, and the
fallback 100 when the settings cannot be determined. -/
def examplesOf (item : Item) : Nat :=
  match item.hypothesis with
  | none => 1
  | some (some n) => n
  | some none => 100

/-- The sentinel substitution of conftest.py lines 156-157:
`response if response else 'Not captured'` (Python falsiness). -/
def sentinel (o : Option String) : String :=
  match o with
  | some s => if s.isEmpty then "Not captured" else s
  | none => "Not captured"

/-- The failure dict of conftest.py lines 102-160: stimuli come from the
callspec params or the source-text regex (collapsed here into the `stimuli`
argument, empty when neither yields anything), response/expected from the
line scan over the error message. -/
def mkFailure (stimuli : List (String × String)) (e : Excinfo) : FailureInfo :=
  let re := extractRE e.message
  { stimuli := if stimuli.isEmpty then .notCaptured else .captured stimuli
    response := sentinel re.1
    expected := sentinel re.2
    error_message := e.message
    error_type := e.typename }

/-- The mutable per-run state: `config._coverage` and `config._feature_coverage`
from pytest_configure (conftest.py lines 31-32). -/
structure Ledger where
  coverage : List (String × List TestInfo)
  featureCoverage : List (String × List FeatTestInfo)
deriving DecidableEq

/-- pytest_configure lines 31-32: every declared requirement starts with an
empty event list; the feature ledger starts empty. -/
def initLedger : Ledger :=
  ⟨REQUIREMENTS.map (fun p => (p.1, [])), []⟩

/-- The call-phase body of pytest_runtest_makereport (conftest.py lines 63-177):
if the test function has no `_requirements` attribute nothing at all happens;
otherwise a `test_info` is built and appended to the ledger entry of every
claimed requirement id that is a key of the coverage dict (unknown ids are
skipped), and, when the function has `_features`, a `feature_test_info` is
appended to every claimed feature id (creating its entry if missing, with no
registry check). -/
def record (item : Item) (excinfo : Option Excinfo)
    (stimuli : List (String × String)) (st : Ledger) : Ledger :=
  match item.requirements with
  | none => st
  | some reqIds =>
    let outcome := match excinfo with | none => Outcome.PASS | some _ => Outcome.FAIL
    let test_info : TestInfo :=
      { test := item.nodeid
        outcome := outcome
        hypothesisExamples := examplesOf item
        failure := excinfo.map (mkFailure stimuli) }
    let cov := reqIds.foldl
      (fun c rid => if (dlookup rid c).isSome then dictAppend rid test_info c else c)
      st.coverage
    let fcov :=
      match item.featureTags with
      | none => st.featureCoverage
      | some featIds =>
        let feature_test_info : FeatTestInfo :=
          { test := item.nodeid, outcome := outcome, examples := test_info.hypothesisExamples }
        featIds.foldl
          (fun fc fid =>
            let fc' := if (dlookup fid fc).isSome then fc else fc ++ [(fid, [])]
            dictAppend fid feature_test_info fc')
          st.featureCoverage
    ⟨cov, fcov⟩

/- ---------- Rounding and summary metrics (simple_reports.py generate_json) ---------- -/

/-- Round to the nearest integer, ties to even: the rounding used by Python's
built-in `round`. -/
def roundHalfEven (q : ℚ) : ℤ :=
  let n := ⌊q⌋
  let frac := q - (n : ℚ)
  if frac < 1 / 2 then n
  else if 1 / 2 < frac then n + 1
  else if n % 2 = 0 then n else n + 1

/-- Python `round(q, 1)` on an exact rational value. -/
def pyRound1 (q : ℚ) : ℚ :=
  (roundHalfEven (q * 10) : ℚ) / 10

/-- The `total_tests` accumulation of simple_reports.py lines 30-34 (one per
recorded dict in any requirement's event list). -/
def totalTestsOf (cov : List (String × List TestInfo)) : Nat :=
  cov.foldl (fun acc p => acc + p.2.length) 0

/-- The `total_examples` accumulation of simple_reports.py lines 30-35
(summing `hypothesis_examples` of every recorded dict). -/
def totalExamplesOf (cov : List (String × List TestInfo)) : Nat :=
  cov.foldl (fun acc p => acc + p.2.foldl (fun a t => a + t.hypothesisExamples) 0) 0

/-- The `summary` object of the JSON report (simple_reports.py lines 47-60). -/
structure Summary where
  total : Nat
  covered : Nat
  verified : Nat
  coverage_percent : ℚ
  verification_percent : ℚ
  total_test_scenarios : Nat
  total_tests : Nat
  total_features : Nat
  features_covered : Nat
  features_verified : Nat
  feature_coverage_percent : ℚ
  feature_verification_percent : ℚ
deriving DecidableEq

/-- The summary computation of generate_json (simple_reports.py lines 24-60):
requirement counts from the coverage dict, feature counts from the feature
coverage dict (`covered_features = len(feature_coverage_data)` counts every
recorded feature key, with no registry membership check). -/
def summaryOf (coverage_data : List (String × List TestInfo))
    (feature_coverage_data : List (String × List FeatTestInfo)) : Summary :=
  let total := REQUIREMENTS.length
  let covered := coverage_data.countP (fun p => !p.2.isEmpty)
  let verified := coverage_data.countP
    (fun p => !p.2.isEmpty && p.2.all (fun t => decide (t.outcome = Outcome.PASS)))
  let total_examples := totalExamplesOf coverage_data
  let total_tests := totalTestsOf coverage_data
  let all_features := get_all_features REQUIREMENTS
  let total_features := all_features.length
  let covered_features := feature_coverage_data.length
  let verified_features := feature_coverage_data.countP
    (fun p => !p.2.isEmpty && p.2.all (fun t => decide (t.outcome = Outcome.PASS)))
  { total := total
    covered := covered
    verified := verified
    coverage_percent := pyRound1 ((covered : ℚ) / (total : ℚ) * 100)
    verification_percent := pyRound1 ((verified : ℚ) / (total : ℚ) * 100)
    total_test_scenarios := total_examples
    total_tests := total_tests
    total_features := total_features
    features_covered := covered_features
    features_verified := verified_features
    feature_coverage_percent :=
      if 0 < total_features then
        pyRound1 ((covered_features : ℚ) / (total_features : ℚ) * 100)
      else 0
    feature_verification_percent :=
      if 0 < total_features then
        pyRound1 ((verified_features : ℚ) / (total_features : ℚ) * 100)
      else 0 }

/- ---------- Report model (simple_reports.py generate_json, lines 65-103) ---------- -/

/-- The `all_pass` flag of simple_reports.py line 67:
`all(t['outcome'] == 'PASS' for t in tests) if tests else False`. -/
def allPassFlag (tests : List TestInfo) : Bool :=
  if tests.isEmpty then false
  else tests.all (fun t => decide (t.outcome = Outcome.PASS))

/-- The `covered` flag of simple_reports.py line 72: `len(tests) > 0`. -/
def coveredFlag (tests : List TestInfo) : Bool :=
  decide (0 < tests.length)

/-- The `verified` flag of simple_reports.py line 73: `len(tests) > 0 and all_pass`. -/
def verifiedFlag (tests : List TestInfo) : Bool :=
  decide (0 < tests.length) && allPassFlag tests

/-- The per-feature breakdown entry of simple_reports.py lines 87-99. -/
structure FeatDetail where
  description : String
  covered : Bool
  verified : Bool
  examples : Nat
deriving DecidableEq

/-- The per-requirement entry of the JSON report (simple_reports.py lines 69-101). -/
structure ReqReport where
  description : String
  priority : String
  covered : Bool
  verified : Bool
  tests : List TestInfo
  features : Option (List (String × FeatDetail))
deriving DecidableEq

/-- The whole JSON report value apart from the generation timestamp
(simple_reports.py lines 45-103). -/
structure Report where
  summary : Summary
  requirements : List (String × ReqReport)
  feature_coverage : List (String × List FeatTestInfo)
deriving DecidableEq

/-- The report construction of generate_json, simple_reports.py lines 45-103,
minus the `timestamp` field and the file write. -/
def buildReport (coverage_data : List (String × List TestInfo))
    (feature_coverage_data : List (String × List FeatTestInfo)) : Report :=
  { summary := summaryOf coverage_data feature_coverage_data
    requirements := REQUIREMENTS.map (fun p =>
      let tests := (dlookup p.1 coverage_data).getD []
      (p.1,
       { description := p.2.description
         priority := p.2.priority
         covered := coveredFlag tests
         verified := verifiedFlag tests
         tests := tests
         features := p.2.features.map (fun feats =>
           feats.map (fun q =>
             match dlookup q.1 feature_coverage_data with
             | some feat_tests =>
               (q.1,
                { description := q.2
                  covered := true
                  verified := feat_tests.all (fun t => decide (t.outcome = Outcome.PASS))
                  examples := feat_tests.foldl (fun a t => a + t.examples) 0 })
             | none =>
               (q.1, { description := q.2, covered := false, verified := false, examples := 0 }))) }))
    feature_coverage := feature_coverage_data }

/-- One run of generate_json over the ledger, with the ledger threaded through
explicitly: the Python function only reads `coverage_data` and
`feature_coverage_data` (dict iteration, `len`, `.get`), assigns only to locals
and to the fresh `report` dict, so the state it returns is the state it was
given. -/
def generateJsonRun (l : Ledger) : Report × Ledger :=
  (buildReport l.coverage l.featureCoverage, l)

/-- The independent summary-statistics computation of the terminal reporter
(conftest.py pytest_terminal_summary, lines 184-196): total, covered, verified,
total test scenarios, total test invocations. -/
def terminalStats (coverage : List (String × List TestInfo)) :
    Nat × Nat × Nat × Nat × Nat :=
  (REQUIREMENTS.length,
   coverage.countP (fun p => !p.2.isEmpty),
   coverage.countP
     (fun p => !p.2.isEmpty && p.2.all (fun t => decide (t.outcome = Outcome.PASS))),
   totalExamplesOf coverage,
   totalTestsOf coverage)

/- ---------- Status classification (simple_reports.py generate_html, lines 244-252) ---------- -/

/-- The three-state requirement classification rendered by generate_html. -/
inductive ReqStatus
  | UNCOVERED
  | VERIFIED
  | FAILING
deriving DecidableEq

/-- simple_reports.py lines 244-252: uncovered when no tests, verified when all
recorded outcomes are PASS, failing otherwise. -/
def statusOf (tests : List TestInfo) : ReqStatus :=
  if tests.isEmpty then .UNCOVERED
  else if tests.all (fun t => decide (t.outcome = Outcome.PASS)) then .VERIFIED
  else .FAILING

/- ---------- CI gate (check_coverage.py) ---------- -/

/-- The part of the persisted JSON summary that check_coverage.py reads. -/
structure GateSummary where
  total : Nat
  verified : Nat
  verification_percent : ℚ
deriving DecidableEq

/-- The per-requirement fields that check_coverage.py reads. -/
structure GateReq where
  description : String
  covered : Bool
  verified : Bool
deriving DecidableEq

/-- The persisted report as read by check_coverage.py. -/
structure GateReport where
  summary : GateSummary
  requirements : List (String × GateReq)
deriving DecidableEq

/-- One iteration of the failure-listing loop of check_coverage.py lines 52-56:
uncovered requirements first, then covered-but-not-verified ones. -/
def gateStep (acc : List String × List String) (p : String × GateReq) :
    List String × List String :=
  if !p.2.covered then (acc.1 ++ [p.1], acc.2)
  else if !p.2.verified then (acc.1, acc.2 ++ [p.1])
  else acc

/-- check_coverage.py lines 15-69: `none` models a missing report.json
(FileNotFoundError path, lines 19-24). Returns the pass flag together with the
uncovered and failing requirement names printed on failure (both empty on the
early-return paths). -/
def check_coverage (min_verification : ℚ) (reportFile : Option GateReport) :
    Bool × List String × List String :=
  match reportFile with
  | none => (false, [], [])
  | some report =>
    let verification_pct := report.summary.verification_percent
    if min_verification ≤ verification_pct then (true, [], [])
    else (false, report.requirements.foldl gateStep ([], []))

/-- The default of the `--min-verification` argument (check_coverage.py lines
15 and 74-79): 95.0. -/
def DEFAULT_MIN_VERIFICATION : ℚ := 95

/-- The `sys.exit(0 if passed else 1)` of check_coverage.py line 84. -/
def gateExit (min_verification : ℚ) (reportFile : Option GateReport) : Nat :=
  if (check_coverage min_verification reportFile).1 then 0 else 1

/- ---------- Concrete sample inputs used by witnesses and counterexamples ---------- -/

/-- The repository's own test_reverse_twice_is_original (simple_test.py lines
16-22): one invocation claiming two requirements, Hypothesis max_examples=500. -/
def itemBothReqs : Item :=
  { nodeid := "simple_test.py::test_reverse_twice_is_original"
    requirements := some ["REQ-1", "REQ-2"]
    featureTags := some ["F1.1", "F1.2", "F1.4", "F2.1", "F2.2", "F2.3"]
    hypothesis := some (some 500) }

/-- A plain test claiming one known requirement and one feature id absent from
the registry. -/
def itemUnknownFeat : Item :=
  { nodeid := "t"
    requirements := some ["REQ-1"]
    featureTags := some ["F-UNKNOWN"]
    hypothesis := none }

/-- A plain test claiming one known requirement and twelve feature ids absent
from the registry (the registry declares eleven features in total). -/
def itemTwelveFeats : Item :=
  { nodeid := "t12"
    requirements := some ["REQ-1"]
    featureTags := some ["X1", "X2", "X3", "X4", "X5", "X6", "X7", "X8", "X9",
                         "X10", "X11", "X12"]
    hypothesis := none }

/-- A test decorated with @feature but not with @requirement. -/
def itemFeatureOnly : Item :=
  { nodeid := "tf"
    requirements := none
    featureTags := some ["F1.1"]
    hypothesis := none }

/-- A plain (non-Hypothesis) test claiming one requirement. -/
def itemPlain : Item :=
  { nodeid := "tp"
    requirements := some ["REQ-3"]
    featureTags := none
    hypothesis := none }

/-- A Hypothesis test whose settings lookup fails. -/
def itemHypFallback : Item :=
  { nodeid := "th"
    requirements := some ["REQ-4"]
    featureTags := none
    hypothesis := some none }

/-- A plain test claiming only a requirement id absent from the registry. -/
def itemUnknownReq : Item :=
  { nodeid := "tu"
    requirements := some ["REQ-99"]
    featureTags := none
    hypothesis := none }

/-- A registry in which two requirements declare the same feature id F1. -/
def dupFeatureRegistry : List (String × ReqData) :=
  [("REQ-A", { description := "dA", priority := "high", features := some [("F1", "d1")] }),
   ("REQ-B", { description := "dB", priority := "low", features := some [("F1", "d2")] })]

/-- A persisted report with one uncovered, one failing and one verified
requirement and a verification percentage below the default gate threshold. -/
def gateReportFailing : GateReport :=
  { summary := { total := 3, verified := 1, verification_percent := 100 / 3 }
    requirements :=
      [("R1", { description := "d1", covered := false, verified := false }),
       ("R2", { description := "d2", covered := true, verified := false }),
       ("R3", { description := "d3", covered := true, verified := true })] }

/-- A persisted report whose verification percentage meets the default threshold. -/
def gateReportPassing : GateReport :=
  { summary := { total := 2, verified := 2, verification_percent := 100 }
    requirements :=
      [("R1", { description := "d1", covered := true, verified := true }),
       ("R2", { description := "d2", covered := true, verified := true })] }

/- ==================== Helper lemmas ==================== -/

theorem le_roundHalfEven (q : ℚ) : ⌊q⌋ ≤ roundHalfEven q := by
  simp only [roundHalfEven]
  split_ifs <;> omega

theorem roundHalfEven_le_floor_add_one (q : ℚ) : roundHalfEven q ≤ ⌊q⌋ + 1 := by
  simp only [roundHalfEven]
  split_ifs <;> omega

theorem roundHalfEven_mono {a b : ℚ} (h : a ≤ b) :
    roundHalfEven a ≤ roundHalfEven b := by
  have hf : ⌊a⌋ ≤ ⌊b⌋ := Int.floor_le_floor h
  by_cases heq : ⌊a⌋ = ⌊b⌋
  · simp only [roundHalfEven, heq]
    split_ifs <;> first | omega | linarith
  · have hlt : ⌊a⌋ < ⌊b⌋ := lt_of_le_of_ne hf heq
    have h1 := roundHalfEven_le_floor_add_one a
    have h2 := le_roundHalfEven b
    omega

theorem pyRound1_mono {a b : ℚ} (h : a ≤ b) : pyRound1 a ≤ pyRound1 b := by
  have h10 : a * 10 ≤ b * 10 := by linarith
  have hr := roundHalfEven_mono h10
  have hc : ((roundHalfEven (a * 10) : ℤ) : ℚ) ≤ ((roundHalfEven (b * 10) : ℤ) : ℚ) := by
    exact_mod_cast hr
  simp only [pyRound1]
  linarith

theorem pyRound1_nonneg {a : ℚ} (h : 0 ≤ a) : 0 ≤ pyRound1 a := by
  have h1 : (0 : ℤ) ≤ ⌊a * 10⌋ := Int.floor_nonneg.mpr (by linarith)
  have h2 := le_roundHalfEven (a * 10)
  have hc : (0 : ℚ) ≤ ((roundHalfEven (a * 10) : ℤ) : ℚ) := by exact_mod_cast le_trans h1 h2
  simp only [pyRound1]
  linarith

theorem roundHalfEven_eq_of_frac_lt {q : ℚ} {n : ℤ} (hn : ⌊q⌋ = n)
    (h : q - (n : ℚ) < 1 / 2) : roundHalfEven q = n := by
  simp only [roundHalfEven, hn]
  rw [if_pos h]

theorem roundHalfEven_eq_of_frac_gt {q : ℚ} {n : ℤ} (hn : ⌊q⌋ = n)
    (h : 1 / 2 < q - (n : ℚ)) : roundHalfEven q = n + 1 := by
  simp only [roundHalfEven, hn]
  rw [if_neg (by linarith), if_pos h]

theorem pyRound1_hundred : pyRound1 (100 : ℚ) = 100 := by
  have hf : ⌊(100 : ℚ) * 10⌋ = 1000 := by
    rw [Int.floor_eq_iff]
    norm_num
  have := roundHalfEven_eq_of_frac_lt hf (by norm_num)
  simp only [pyRound1, this]
  norm_num

theorem pyRound1_le_hundred {a : ℚ} (h : a ≤ 100) : pyRound1 a ≤ 100 := by
  calc pyRound1 a ≤ pyRound1 100 := pyRound1_mono h
    _ = 100 := pyRound1_hundred

/-- Either outcome that is not PASS is FAIL. -/
theorem outcome_ne_pass_iff (o : Outcome) : ¬ o = Outcome.PASS ↔ o = Outcome.FAIL := by
  cases o <;> simp

/- ==================== C6 ==================== -/

/-- C6: the status classification of generate_html is the strict three-state
function of the recorded events — UNCOVERED exactly on zero events, VERIFIED
exactly on at least one event with all PASS, FAILING exactly on at least one
event with at least one FAIL — and generate_json's covered flag is
`events.length > 0` while its verified flag is covered AND all events PASS. -/
theorem c6_status_classification (tests : List TestInfo) :
    (statusOf tests = ReqStatus.UNCOVERED ↔ tests = []) ∧
    (statusOf tests = ReqStatus.VERIFIED ↔
      tests ≠ [] ∧ ∀ t ∈ tests, t.outcome = Outcome.PASS) ∧
    (statusOf tests = ReqStatus.FAILING ↔
      tests ≠ [] ∧ ∃ t ∈ tests, t.outcome = Outcome.FAIL) ∧
    (coveredFlag tests = true ↔ 0 < tests.length) ∧
    (verifiedFlag tests = true ↔
      coveredFlag tests = true ∧ ∀ t ∈ tests, t.outcome = Outcome.PASS) := by
  by_cases hnil : tests = []
  · subst hnil
    refine ⟨?_, ?_, ?_, ?_, ?_⟩
    all_goals simp [statusOf, coveredFlag, verifiedFlag, allPassFlag]
  · have hne : tests.isEmpty = false := by
      cases tests with
      | nil => exact absurd rfl hnil
      | cons a l => rfl
    by_cases hall : ∀ t ∈ tests, t.outcome = Outcome.PASS
    · have hb : tests.all (fun t => decide (t.outcome = Outcome.PASS)) = true := by
        rw [List.all_eq_true]
        intro t ht
        exact decide_eq_true (hall t ht)
      have hs : statusOf tests = ReqStatus.VERIFIED := by
        simp [statusOf, hne, hb]
      refine ⟨?_, ?_, ?_, ?_, ?_⟩
      · simp [hs, hnil]
      · rw [hs]
        exact ⟨fun _ => ⟨hnil, hall⟩, fun _ => rfl⟩
      · simp only [hs]
        constructor
        · intro h; exact absurd h (by simp)
        · rintro ⟨-, t, ht, hfail⟩
          have := hall t ht
          rw [hfail] at this
          exact absurd this (by simp)
      · simp [coveredFlag, List.length_pos, hnil]
      · constructor
        · intro _
          exact ⟨by simp [coveredFlag, List.length_pos, hnil], hall⟩
        · intro _
          simp [verifiedFlag, allPassFlag, hne, hb, List.length_pos, hnil]
    · have hb : tests.all (fun t => decide (t.outcome = Outcome.PASS)) = false := by
        rw [← Bool.not_eq_true, List.all_eq_true]
        intro hcontra
        exact hall (fun t ht => of_decide_eq_true (hcontra t ht))
      have hs : statusOf tests = ReqStatus.FAILING := by
        simp [statusOf, hne, hb]
      have hex : ∃ t ∈ tests, t.outcome = Outcome.FAIL := by
        by_contra hcon
        push_neg at hcon
        apply hall
        intro t ht
        cases htout : t.outcome
        · rfl
        · exact absurd htout (hcon t ht)
      refine ⟨?_, ?_, ?_, ?_, ?_⟩
      · simp [hs, hnil]
      · simp [hs, hall]
      · simp [hs, hnil, hex]
      · simp [coveredFlag, List.length_pos, hnil]
      · simp [coveredFlag, verifiedFlag, allPassFlag, hne, hb, hall]

/- ==================== C9 ==================== -/

/-- C9: an event whose test carries feature tags but no requirement tags (no
`_requirements` attribute) is never recorded: the whole body of
pytest_runtest_makereport is guarded by the `_requirements` check, so both the
requirement ledger and the feature ledger are left unchanged. -/
theorem c9_feature_only_not_recorded (item : Item) (excinfo : Option Excinfo)
    (stimuli : List (String × String)) (st : Ledger) (fs : List String)
    (hreq : item.requirements = none) (_hfeat : item.featureTags = some fs) :
    record item excinfo stimuli st = st := by
  simp [record, hreq]

/-- Witness for C9: a test decorated only with @feature("F1.1") leaves the
initial ledger untouched. -/
theorem c9_feature_only_not_recorded_witness :
    record itemFeatureOnly none [] initLedger = initLedger :=
  c9_feature_only_not_recorded itemFeatureOnly none [] initLedger ["F1.1"] rfl rfl

/- ==================== C4 ==================== -/

/-- C4 counterexample: a registry in which REQ-A and REQ-B both declare feature
F1 does not make get_all_features signal any error — it returns a normal
mapping in which REQ-B's declaration has silently shadowed REQ-A's — and a
duplicated requirement key in a Python dict literal likewise collapses silently
to the later entry. -/
theorem c4_counterexample :
    get_all_features dupFeatureRegistry =
      [("F1", { description := "d2", requirement := "REQ-B" })] ∧
    dictOfList [("REQ-X", "first"), ("REQ-X", "second")] = [("REQ-X", "second")] :=
  ⟨rfl, rfl⟩

theorem dlookup_dictInsert_self (k : String) (v : α) :
    ∀ d : List (String × α), dlookup k (dictInsert k v d) = some v := by
  intro d
  induction d with
  | nil => simp [dictInsert, dlookup]
  | cons p rest ih =>
    simp only [dictInsert]
    by_cases h : p.1 = k
    · simp [h, dlookup]
    · simp [h, dlookup, ih]

/-- C4 amended: registry load never fails on a duplicate feature id; whichever
requirement declares a feature id last wins in the flattened mapping, silently
shadowing every earlier declaration (and a duplicated requirement id in the
dict literal collapses to the later entry, also without error). -/
theorem c4_amended (reg : List (String × ReqData)) (rid desc prio f d : String) :
    dlookup f
      (get_all_features
        (reg ++ [(rid, { description := desc, priority := prio, features := some [(f, d)] })]))
      = some { description := d, requirement := rid } := by
  simp only [get_all_features, List.foldl_append]
  exact dlookup_dictInsert_self f _ _

/- ==================== C2 ==================== -/

/-- C2 counterexample: in the error text "+abc\nassert x == y" the diff-style
line "+abc" on line 1 sets response to "abc", but the assert-pattern line on
line 2 — scanned later — overwrites it: the extraction returns response "x",
not "abc", because the assert branch of conftest.py lines 140-145 assigns
unconditionally, with no not-already-set guard. -/
theorem c2_counterexample :
    extractRE "+abc\nassert x == y" = (some "x", some "y") ∧
    (extractRE "+abc\nassert x == y").1 ≠ some "abc" := by
  exact ⟨by decide, by decide⟩

/-- C2 amended: the scan is first-found-wins only for the diff-style branches —
a line that is not an assert-pattern line never overwrites an already truthy
response or expected — while an assert-pattern line (containing ' == ' and
'assert', splitting into exactly two parts) assigns both fields unconditionally,
its result independent of everything scanned earlier; in particular a later
assert-pattern match does overwrite values set by an earlier diff-style line,
and among several assert-pattern lines the last one wins. -/
theorem c2_amended (r e : Option String) (line : String) :
    (assertEqCond line = true → (pySplit line " == ").length = 2 →
      scanStep (r, e) line =
        (some (pyTrim (pyReplace ((pySplit line " == ").getD 0 "") "assert" "")),
         some (pyTrim ((pySplit line " == ").getD 1 "")))) ∧
    (assertEqCond line = false →
      (pyFalsy r = false → (scanStep (r, e) line).1 = r) ∧
      (pyFalsy e = false → (scanStep (r, e) line).2 = e)) := by
  constructor
  · intro h1 h2
    simp only [scanStep, h1, if_true, h2, if_pos]
  · intro h1
    constructor
    · intro hr
      simp only [scanStep, h1, Bool.false_eq_true, if_false]
      split_ifs with hplus hfr hminus hfe <;> simp_all
    · intro he
      simp only [scanStep, h1, Bool.false_eq_true, if_false]
      split_ifs with hplus hfr hminus hfe <;> simp_all

/-- Witness for C2 amended: an assert-pattern line overwrites an already-set
response, and diff-style lines leave already-set fields alone. -/
theorem c2_amended_witness :
    scanStep (some "abc", none) "assert x == y" = (some "x", some "y") ∧
    (scanStep (some "abc", some "d") "+zzz").1 = some "abc" ∧
    (scanStep (some "abc", some "d") "-zzz").2 = some "d" := by
  refine ⟨?_, ?_, ?_⟩
  · have h := (c2_amended (some "abc") none "assert x == y").1 (by decide) (by decide)
    rw [h]
    decide
  · exact ((c2_amended (some "abc") (some "d") "+zzz").2 (by decide)).1 (by decide)
  · exact ((c2_amended (some "abc") (some "d") "-zzz").2 (by decide)).2 (by decide)

/- ==================== C8 ==================== -/

theorem gate_fold (l : List (String × GateReq)) :
    ∀ a b : List String,
      l.foldl gateStep (a, b) =
        (a ++ (l.filter (fun p => !p.2.covered)).map Prod.fst,
         b ++ (l.filter (fun p => p.2.covered && !p.2.verified)).map Prod.fst) := by
  induction l with
  | nil => intro a b; simp
  | cons p rest ih =>
    intro a b
    simp only [List.foldl_cons, List.filter_cons]
    cases hc : p.2.covered
    · simp only [gateStep, hc, Bool.not_false, if_true, Bool.false_and]
      rw [ih]
      simp
    · cases hv : p.2.verified
      · simp only [gateStep, hc, Bool.not_true, Bool.false_eq_true, if_false, hv,
          Bool.not_false, if_true, Bool.true_and]
        rw [ih]
        simp
      · simp only [gateStep, hc, Bool.not_true, Bool.false_eq_true, if_false, hv,
          Bool.true_and]
        rw [ih]

/-- C8: the CI gate exits 0 exactly when a report file exists and its
verification percentage meets the threshold; it exits 1 both when the file is
missing and when the threshold is not met; on a threshold failure it names
exactly the requirements with covered false as uncovered and exactly those
with covered true and verified false as failing; and the default threshold is
95.0. -/
theorem c8_ci_gate (reportFile : Option GateReport) (min_verification : ℚ) :
    (gateExit min_verification reportFile = 0 ↔
      ∃ r, reportFile = some r ∧ min_verification ≤ r.summary.verification_percent) ∧
    (gateExit min_verification reportFile = 1 ↔
      reportFile = none ∨
        ∃ r, reportFile = some r ∧ r.summary.verification_percent < min_verification) ∧
    (∀ r, reportFile = some r → r.summary.verification_percent < min_verification →
      (check_coverage min_verification reportFile).2.1 =
        (r.requirements.filter (fun p => !p.2.covered)).map Prod.fst ∧
      (check_coverage min_verification reportFile).2.2 =
        (r.requirements.filter (fun p => p.2.covered && !p.2.verified)).map Prod.fst) ∧
    DEFAULT_MIN_VERIFICATION = 95 := by
  refine ⟨?_, ?_, ?_, rfl⟩
  · cases reportFile with
    | none => simp [gateExit, check_coverage]
    | some r =>
      by_cases h : min_verification ≤ r.summary.verification_percent
      · simp [gateExit, check_coverage, h]
      · simp [gateExit, check_coverage, h]
  · cases reportFile with
    | none => simp [gateExit, check_coverage]
    | some r =>
      by_cases h : min_verification ≤ r.summary.verification_percent
      · simp only [gateExit, check_coverage, h, if_true]
        constructor
        · intro hcon; exact absurd hcon (by norm_num)
        · rintro (hcon | ⟨r', hr', hlt⟩)
          · exact absurd hcon (by simp)
          · rw [Option.some_inj] at hr'
            subst hr'
            exact absurd h (not_le.mpr hlt)
      · simp only [gateExit, check_coverage, h, if_false]
        exact ⟨fun _ => Or.inr ⟨r, rfl, not_le.mp h⟩, fun _ => rfl⟩
  · rintro r rfl hlt
    simp only [check_coverage, if_neg (not_le.mpr hlt)]
    rw [gate_fold]
    simp

/-- Witness for C8: on a concrete failing report the gate exits 1 and lists the
uncovered requirement R1 and the failing requirement R2; on a passing report it
exits 0; on a missing file it exits 1. -/
theorem c8_ci_gate_witness :
    gateExit DEFAULT_MIN_VERIFICATION (some gateReportFailing) = 1 ∧
    (check_coverage DEFAULT_MIN_VERIFICATION (some gateReportFailing)).2.1 = ["R1"] ∧
    (check_coverage DEFAULT_MIN_VERIFICATION (some gateReportFailing)).2.2 = ["R2"] ∧
    gateExit DEFAULT_MIN_VERIFICATION none = 1 ∧
    gateExit DEFAULT_MIN_VERIFICATION (some gateReportPassing) = 0 := by
  have hlt : gateReportFailing.summary.verification_percent < DEFAULT_MIN_VERIFICATION := by
    simp only [gateReportFailing, DEFAULT_MIN_VERIFICATION]
    norm_num
  have hmain := c8_ci_gate (some gateReportFailing) DEFAULT_MIN_VERIFICATION
  have hlists := hmain.2.2.1 gateReportFailing rfl hlt
  refine ⟨?_, ?_, ?_, ?_, ?_⟩
  · exact (hmain.2.1).mpr (Or.inr ⟨gateReportFailing, rfl, hlt⟩)
  · rw [hlists.1]; rfl
  · rw [hlists.2]; rfl
  · exact ((c8_ci_gate none DEFAULT_MIN_VERIFICATION).2.1).mpr (Or.inl rfl)
  · exact ((c8_ci_gate (some gateReportPassing) DEFAULT_MIN_VERIFICATION).1).mpr
      ⟨gateReportPassing, rfl, by simp only [gateReportPassing, DEFAULT_MIN_VERIFICATION]; norm_num⟩

/- ==================== Ledger-total lemmas for C1 and C3 ==================== -/

theorem totalTestsOf_foldl_init (l : List (String × List TestInfo)) :
    ∀ n : Nat, l.foldl (fun acc p => acc + p.2.length) n = n + totalTestsOf l := by
  induction l with
  | nil => intro n; simp [totalTestsOf]
  | cons p rest ih =>
    intro n
    simp only [totalTestsOf, List.foldl_cons]
    rw [ih (n + p.2.length), ih (0 + p.2.length)]
    omega

theorem innerExamples_foldl_init (ts : List TestInfo) :
    ∀ n : Nat, ts.foldl (fun a t => a + t.hypothesisExamples) n
      = n + ts.foldl (fun a t => a + t.hypothesisExamples) 0 := by
  induction ts with
  | nil => intro n; simp
  | cons t rest ih =>
    intro n
    simp only [List.foldl_cons]
    rw [ih (n + t.hypothesisExamples), ih (0 + t.hypothesisExamples)]
    omega

theorem totalExamplesOf_foldl_init (l : List (String × List TestInfo)) :
    ∀ n : Nat, l.foldl (fun acc p => acc + p.2.foldl (fun a t => a + t.hypothesisExamples) 0) n
      = n + totalExamplesOf l := by
  induction l with
  | nil => intro n; simp [totalExamplesOf]
  | cons p rest ih =>
    intro n
    simp only [totalExamplesOf, List.foldl_cons]
    rw [ih (n + p.2.foldl (fun a t => a + t.hypothesisExamples) 0),
        ih (0 + p.2.foldl (fun a t => a + t.hypothesisExamples) 0)]
    omega

theorem dlookup_dictAppend_isSome (r k : String) (v : α)
    (c : List (String × List α)) :
    (dlookup r (dictAppend k v c)).isSome = (dlookup r c).isSome := by
  induction c with
  | nil => simp [dictAppend]
  | cons p rest ih =>
    simp only [dictAppend]
    by_cases hk : p.1 = k
    · simp only [hk, if_true, dlookup]
      by_cases hr : p.1 = r
      · simp [hk ▸ hr]
      · simp only [hk] at hr
        simp [hr]
    · simp only [hk, if_false, dlookup]
      by_cases hr : p.1 = r
      · simp [hr]
      · simp [hr, ih]

theorem totalTestsOf_dictAppend (k : String) (v : TestInfo)
    (c : List (String × List TestInfo)) (h : (dlookup k c).isSome = true) :
    totalTestsOf (dictAppend k v c) = totalTestsOf c + 1 := by
  induction c with
  | nil => simp [dlookup] at h
  | cons p rest ih =>
    simp only [dictAppend]
    by_cases hk : p.1 = k
    · simp only [hk, if_true, totalTestsOf, List.foldl_cons]
      rw [totalTestsOf_foldl_init rest, totalTestsOf_foldl_init rest]
      simp only [List.length_append, List.length_cons, List.length_nil]
      omega
    · simp only [dlookup, hk, if_false] at h
      simp only [hk, if_false, totalTestsOf, List.foldl_cons]
      rw [totalTestsOf_foldl_init (dictAppend k v rest), totalTestsOf_foldl_init rest]
      have := ih h
      simp only [totalTestsOf] at this ⊢
      omega

theorem totalExamplesOf_dictAppend (k : String) (v : TestInfo)
    (c : List (String × List TestInfo)) (h : (dlookup k c).isSome = true) :
    totalExamplesOf (dictAppend k v c) = totalExamplesOf c + v.hypothesisExamples := by
  induction c with
  | nil => simp [dlookup] at h
  | cons p rest ih =>
    simp only [dictAppend]
    by_cases hk : p.1 = k
    · simp only [hk, if_true, totalExamplesOf, List.foldl_cons]
      rw [totalExamplesOf_foldl_init rest, totalExamplesOf_foldl_init rest,
          List.foldl_append]
      simp only [List.foldl_cons, List.foldl_nil]
      omega
    · simp only [dlookup, hk, if_false] at h
      simp only [hk, if_false, totalExamplesOf, List.foldl_cons]
      rw [totalExamplesOf_foldl_init (dictAppend k v rest), totalExamplesOf_foldl_init rest]
      have := ih h
      simp only [totalExamplesOf] at this ⊢
      omega

theorem record_fold_tests (ti : TestInfo) :
    ∀ (rids : List String) (c : List (String × List TestInfo)),
      totalTestsOf (rids.foldl
          (fun cc rid => if (dlookup rid cc).isSome then dictAppend rid ti cc else cc) c)
        = totalTestsOf c + rids.countP (fun rid => (dlookup rid c).isSome) := by
  intro rids
  induction rids with
  | nil => intro c; simp
  | cons r rs ih =>
    intro c
    simp only [List.foldl_cons, List.countP_cons]
    by_cases h : (dlookup r c).isSome = true
    · rw [if_pos h, ih (dictAppend r ti c)]
      have hfun : (fun rid => (dlookup rid (dictAppend r ti c)).isSome)
          = (fun rid => (dlookup rid c).isSome) :=
        funext (fun rid => dlookup_dictAppend_isSome rid r ti c)
      rw [hfun, totalTestsOf_dictAppend r ti c h, h]
      simp only [if_true]
      omega
    · rw [if_neg h, ih c]
      have hb : (dlookup r c).isSome = false := by
        cases hx : (dlookup r c).isSome
        · rfl
        · exact absurd hx h
      rw [hb]
      simp

theorem record_fold_examples (ti : TestInfo) :
    ∀ (rids : List String) (c : List (String × List TestInfo)),
      totalExamplesOf (rids.foldl
          (fun cc rid => if (dlookup rid cc).isSome then dictAppend rid ti cc else cc) c)
        = totalExamplesOf c
          + rids.countP (fun rid => (dlookup rid c).isSome) * ti.hypothesisExamples := by
  intro rids
  induction rids with
  | nil => intro c; simp
  | cons r rs ih =>
    intro c
    simp only [List.foldl_cons, List.countP_cons]
    by_cases h : (dlookup r c).isSome = true
    · rw [if_pos h, ih (dictAppend r ti c)]
      have hfun : (fun rid => (dlookup rid (dictAppend r ti c)).isSome)
          = (fun rid => (dlookup rid c).isSome) :=
        funext (fun rid => dlookup_dictAppend_isSome rid r ti c)
      rw [hfun, totalExamplesOf_dictAppend r ti c h, h]
      simp only [if_true, Nat.add_mul, Nat.one_mul]
      omega
    · rw [if_neg h, ih c]
      have hb : (dlookup r c).isSome = false := by
        cases hx : (dlookup r c).isSome
        · rfl
        · exact absurd hx h
      rw [hb]
      simp

theorem record_fold_skip_unknown {β : Type} (ti : β) :
    ∀ (rids : List String) (c : List (String × List β)),
      (∀ r ∈ rids, dlookup r c = none) →
      rids.foldl (fun cc rid => if (dlookup rid cc).isSome then dictAppend rid ti cc else cc) c
        = c := by
  intro rids
  induction rids with
  | nil => intro c _; rfl
  | cons r rs ih =>
    intro c h
    have hr : dlookup r c = none := h r (by simp)
    simp only [List.foldl_cons, hr, Option.isSome_none, Bool.false_eq_true, if_false]
    exact ih c (fun r' hr' => h r' (by simp [hr']))

/- ==================== C1 ==================== -/

/-- C1 counterexample: recording the repository's own
test_reverse_twice_is_original — one event object tagged REQ-1 and REQ-2 with
500 Hypothesis examples — into the fresh ledger yields total_tests = 2 and
total_test_scenarios = 1000, because generate_json (like the terminal summary)
iterates over every requirement's event list, counting the single event once
per requirement it was filed under, not exactly once. -/
theorem c1_counterexample :
    totalTestsOf (record itemBothReqs none [] initLedger).coverage = 2 ∧
    totalExamplesOf (record itemBothReqs none [] initLedger).coverage = 1000 ∧
    totalTestsOf (record itemBothReqs none [] initLedger).coverage ≠ 1 :=
  ⟨by decide, by decide, by decide⟩

/-- C1 amended: each recorded event contributes once per registry-known
requirement id it is filed under — recording an event that claims the id list
`rids` adds, to total_tests, the number of claimed ids present in the coverage
ledger (k for an event attached to k known requirements), and adds k times the
event's example count to total_test_scenarios. -/
theorem c1_amended (item : Item) (excinfo : Option Excinfo)
    (stimuli : List (String × String)) (st : Ledger) (rids : List String)
    (h : item.requirements = some rids) :
    totalTestsOf (record item excinfo stimuli st).coverage
      = totalTestsOf st.coverage
        + rids.countP (fun rid => (dlookup rid st.coverage).isSome) ∧
    totalExamplesOf (record item excinfo stimuli st).coverage
      = totalExamplesOf st.coverage
        + rids.countP (fun rid => (dlookup rid st.coverage).isSome) * examplesOf item := by
  simp only [record, h]
  exact ⟨record_fold_tests _ rids st.coverage, record_fold_examples _ rids st.coverage⟩

/-- Witness for C1 amended, at the two-requirement event of the repository's
own test suite recorded into the fresh ledger. -/
theorem c1_amended_witness :
    totalTestsOf (record itemBothReqs none [] initLedger).coverage
      = totalTestsOf initLedger.coverage
        + List.countP (fun rid => (dlookup rid initLedger.coverage).isSome)
            ["REQ-1", "REQ-2"] ∧
    totalExamplesOf (record itemBothReqs none [] initLedger).coverage
      = totalExamplesOf initLedger.coverage
        + List.countP (fun rid => (dlookup rid initLedger.coverage).isSome)
            ["REQ-1", "REQ-2"] * examplesOf itemBothReqs :=
  c1_amended itemBothReqs none [] initLedger ["REQ-1", "REQ-2"] rfl

/- ==================== C3 ==================== -/

/-- C3 counterexample: recording an event that claims the feature id
"F-UNKNOWN", absent from the registry, does append to the feature ledger — a
new entry is created for the unknown id — and the summary's features_covered
then counts it (1, although the registry-declared covered count is 0), because
conftest.py lines 167-177 create feature entries without any registry check and
generate_json line 41 takes `len(feature_coverage_data)`. -/
theorem c3_counterexample :
    dlookup "F-UNKNOWN" (record itemUnknownFeat none [] initLedger).featureCoverage
      = some [{ test := "t", outcome := Outcome.PASS, examples := 1 }] ∧
    (summaryOf (record itemUnknownFeat none [] initLedger).coverage
        (record itemUnknownFeat none [] initLedger).featureCoverage).features_covered = 1 ∧
    dlookup "F-UNKNOWN" (get_all_features REQUIREMENTS) = none :=
  ⟨by decide, by decide, by decide⟩

/-- C3 amended: a claimed requirement id absent from the coverage ledger (whose
keys are the registry's requirement ids) is silently ignored — recording an
event all of whose claimed requirement ids are unknown leaves the requirement
ledger unchanged and never fails — and the summary denominators total and
total_features always come from the registry; but a claimed feature id absent
from the registry is NOT ignored: it is appended to the feature ledger and
counted by features_covered/features_verified, which are computed over the
recorded (claimed) feature key set. -/
theorem c3_amended (item : Item) (excinfo : Option Excinfo)
    (stimuli : List (String × String)) (st : Ledger) (rids : List String)
    (h : item.requirements = some rids)
    (hunk : ∀ r ∈ rids, dlookup r st.coverage = none) :
    (record item excinfo stimuli st).coverage = st.coverage ∧
    (summaryOf st.coverage st.featureCoverage).total = REQUIREMENTS.length ∧
    (summaryOf st.coverage st.featureCoverage).total_features
      = (get_all_features REQUIREMENTS).length := by
  refine ⟨?_, rfl, rfl⟩
  simp only [record, h]
  exact record_fold_skip_unknown _ rids st.coverage hunk

/-- Witness for C3 amended: an event claiming only the unknown id REQ-99 leaves
the requirement ledger of the fresh state unchanged. -/
theorem c3_amended_witness :
    (record itemUnknownReq none [] initLedger).coverage = initLedger.coverage ∧
    (summaryOf initLedger.coverage initLedger.featureCoverage).total
      = REQUIREMENTS.length :=
  have h := c3_amended itemUnknownReq none [] initLedger ["REQ-99"] rfl (by decide)
  ⟨h.1, h.2.1⟩

/- ==================== C5 ==================== -/

theorem percent_nonneg (n m : ℕ) : 0 ≤ pyRound1 ((n : ℚ) / (m : ℚ) * 100) :=
  pyRound1_nonneg (by positivity)

theorem percent_le_hundred {n m : ℕ} (h : n ≤ m) (hm : 0 < m) :
    pyRound1 ((n : ℚ) / (m : ℚ) * 100) ≤ 100 := by
  apply pyRound1_le_hundred
  have hmq : (0 : ℚ) < (m : ℚ) := by exact_mod_cast hm
  have hnq : (n : ℚ) ≤ (m : ℚ) := by exact_mod_cast h
  rw [div_mul_eq_mul_div, div_le_iff₀ hmq]
  linarith

theorem percent_mono {n n' m : ℕ} (h : n ≤ n') :
    pyRound1 ((n : ℚ) / (m : ℚ) * 100) ≤ pyRound1 ((n' : ℚ) / (m : ℚ) * 100) := by
  apply pyRound1_mono
  have hnq : (n : ℚ) ≤ (n' : ℚ) := by exact_mod_cast h
  rcases Nat.eq_zero_or_pos m with hm | hm
  · subst hm
    simp
  · have hmq : (0 : ℚ) < (m : ℚ) := by exact_mod_cast hm
    have := (div_le_div_iff_of_pos_right hmq).mpr hnq
    nlinarith

/-- C5 counterexample: a reachable ledger state — the fresh ledger after
recording one event that claims twelve feature ids absent from the registry
(the registry declares eleven features) — has feature_coverage_percent
round(12/11*100, 1) = 109.1, outside [0, 100]. -/
theorem c5_counterexample :
    ¬ ((summaryOf (record itemTwelveFeats none [] initLedger).coverage
        (record itemTwelveFeats none [] initLedger).featureCoverage).feature_coverage_percent
          ≤ 100) ∧
    (summaryOf (record itemTwelveFeats none [] initLedger).coverage
        (record itemTwelveFeats none [] initLedger).featureCoverage).feature_coverage_percent
      = 1091 / 10 := by
  have hfcp : (summaryOf (record itemTwelveFeats none [] initLedger).coverage
      (record itemTwelveFeats none [] initLedger).featureCoverage).feature_coverage_percent
      = pyRound1 (1200 / 11) := by
    have hlen : (record itemTwelveFeats none [] initLedger).featureCoverage.length = 12 := by
      decide
    have hgaf : (get_all_features REQUIREMENTS).length = 11 := by decide
    simp only [summaryOf, hlen, hgaf]
    norm_num
  have hround : pyRound1 ((1200 : ℚ) / 11) = 1091 / 10 := by
    have hf : ⌊(1200 / 11 : ℚ) * 10⌋ = 1090 := by
      rw [Int.floor_eq_iff]
      norm_num
    have h2 := roundHalfEven_eq_of_frac_gt hf (by norm_num)
    simp only [pyRound1, h2]
    norm_num
  constructor
  · rw [hfcp, hround]
    norm_num
  · rw [hfcp, hround]

/-- C5 amended: for every ledger whose requirement-coverage keys are the
registry's requirement ids (the invariant of every reachable state), the
requirement-level percentages are in [0, 100] with
verification_percent ≤ coverage_percent; the feature-level percentages always
satisfy 0 ≤ feature_verification_percent ≤ feature_coverage_percent, but they
are bounded by 100 only when the number of recorded feature-ledger entries does
not exceed the registry's feature count — a feature ledger holding ids outside
the registry can push both feature percentages above 100. -/
theorem c5_amended (cov : List (String × List TestInfo))
    (fcov : List (String × List FeatTestInfo))
    (hwf : cov.map Prod.fst = REQUIREMENTS.map Prod.fst) :
    (0 ≤ (summaryOf cov fcov).coverage_percent ∧
      (summaryOf cov fcov).coverage_percent ≤ 100) ∧
    (0 ≤ (summaryOf cov fcov).verification_percent ∧
      (summaryOf cov fcov).verification_percent ≤ (summaryOf cov fcov).coverage_percent) ∧
    (0 ≤ (summaryOf cov fcov).feature_verification_percent ∧
      (summaryOf cov fcov).feature_verification_percent
        ≤ (summaryOf cov fcov).feature_coverage_percent) ∧
    ((summaryOf cov fcov).features_covered ≤ (summaryOf cov fcov).total_features →
      (summaryOf cov fcov).feature_coverage_percent ≤ 100 ∧
      (summaryOf cov fcov).feature_verification_percent ≤ 100) := by
  have hlen : cov.length = REQUIREMENTS.length := by
    have h := congrArg List.length hwf
    simpa using h
  have hreqpos : 0 < REQUIREMENTS.length := by decide
  have hc : cov.countP (fun p => !p.2.isEmpty) ≤ REQUIREMENTS.length :=
    le_trans (List.countP_le_length _) (le_of_eq hlen)
  have hvc : cov.countP
      (fun p => !p.2.isEmpty && p.2.all (fun t => decide (t.outcome = Outcome.PASS)))
      ≤ cov.countP (fun p => !p.2.isEmpty) :=
    List.countP_mono_left (fun p _ hb => ((Bool.and_eq_true _ _).mp hb).1)
  have hgafpos : 0 < (get_all_features REQUIREMENTS).length := by decide
  have hfvc : fcov.countP
      (fun p => !p.2.isEmpty && p.2.all (fun t => decide (t.outcome = Outcome.PASS)))
      ≤ fcov.length := List.countP_le_length _
  simp only [summaryOf, if_pos hgafpos]
  refine ⟨⟨percent_nonneg _ _, percent_le_hundred hc hreqpos⟩,
          ⟨percent_nonneg _ _, percent_mono hvc⟩,
          ⟨percent_nonneg _ _, percent_mono hfvc⟩, ?_⟩
  intro hle
  exact ⟨percent_le_hundred hle hgafpos, percent_le_hundred (le_trans hfvc hle) hgafpos⟩

/-- Witness for C5 amended, at the fresh ledger (coverage keys are exactly the
registry's requirement ids, feature ledger empty). -/
theorem c5_amended_witness :
    (0 ≤ (summaryOf initLedger.coverage []).coverage_percent ∧
      (summaryOf initLedger.coverage []).coverage_percent ≤ 100) ∧
    ((summaryOf initLedger.coverage []).verification_percent
      ≤ (summaryOf initLedger.coverage []).coverage_percent) ∧
    (summaryOf initLedger.coverage []).feature_coverage_percent ≤ 100 := by
  have h := c5_amended initLedger.coverage [] (by decide)
  exact ⟨h.1, h.2.1.2, (h.2.2.2 (by decide)).1⟩

/- ==================== C7 ==================== -/

/-- C7: building the report is read-only and deterministic — one run returns
the ledger it was given unchanged, a second run on that returned ledger yields
a report identical on every field (the timestamp is not part of the modelled
report value), and the summary agrees field by field with the independently
coded statistics of the terminal reporter, the other consumer of the same
ledger. -/
theorem c7_report_deterministic_readonly (l : Ledger) :
    (generateJsonRun l).2 = l ∧
    (generateJsonRun ((generateJsonRun l).2)).1 = (generateJsonRun l).1 ∧
    ((generateJsonRun l).1.summary.total,
     (generateJsonRun l).1.summary.covered,
     (generateJsonRun l).1.summary.verified,
     (generateJsonRun l).1.summary.total_test_scenarios,
     (generateJsonRun l).1.summary.total_tests) = terminalStats l.coverage :=
  ⟨rfl, rfl, rfl⟩

/- ==================== C10 ==================== -/

theorem innerExamples_ge_length (ts : List TestInfo)
    (h : ∀ t ∈ ts, 1 ≤ t.hypothesisExamples) :
    ts.length ≤ ts.foldl (fun a t => a + t.hypothesisExamples) 0 := by
  induction ts with
  | nil => simp
  | cons t rest ih =>
    simp only [List.length_cons, List.foldl_cons]
    rw [innerExamples_foldl_init rest]
    have h1 : 1 ≤ t.hypothesisExamples := h t (by simp)
    have h2 := ih (fun t' ht' => h t' (by simp [ht']))
    omega

theorem totalTests_le_totalExamples (cov : List (String × List TestInfo))
    (h : ∀ p ∈ cov, ∀ t ∈ p.2, 1 ≤ t.hypothesisExamples) :
    totalTestsOf cov ≤ totalExamplesOf cov := by
  induction cov with
  | nil => simp [totalTestsOf, totalExamplesOf]
  | cons p rest ih =>
    simp only [totalTestsOf, totalExamplesOf, List.foldl_cons]
    rw [totalTestsOf_foldl_init rest, totalExamplesOf_foldl_init rest]
    have h1 := innerExamples_ge_length p.2 (h p (by simp))
    have h2 := ih (fun p' hp' => h p' (by simp [hp']))
    omega

/-- C10: the recorded example count is 1 for a non-Hypothesis test, the
readable max_examples setting for a Hypothesis test, and the fallback 100 when
the settings cannot be determined; it is at least 1 whenever every readable
setting is (Hypothesis itself guarantees max_examples >= 1); and consequently
total_test_scenarios >= total_tests on every ledger whose recorded events all
carry an example count of at least 1. -/
theorem c10_example_count (item : Item) (cov : List (String × List TestInfo)) :
    (item.hypothesis = none → examplesOf item = 1) ∧
    (∀ n, item.hypothesis = some (some n) → examplesOf item = n) ∧
    (item.hypothesis = some none → examplesOf item = 100) ∧
    ((∀ n, item.hypothesis = some (some n) → 1 ≤ n) → 1 ≤ examplesOf item) ∧
    ((∀ p ∈ cov, ∀ t ∈ p.2, 1 ≤ t.hypothesisExamples) →
      totalTestsOf cov ≤ totalExamplesOf cov) := by
  refine ⟨?_, ?_, ?_, ?_, totalTests_le_totalExamples cov⟩
  · intro h; simp [examplesOf, h]
  · intro n h; simp [examplesOf, h]
  · intro h; simp [examplesOf, h]
  · intro h
    cases hh : item.hypothesis with
    | none => simp [examplesOf, hh]
    | some o =>
      cases o with
      | none => simp [examplesOf, hh]
      | some n =>
        have := h n hh
        simpa [examplesOf, hh] using this

/-- Witness for C10: a plain test yields 1, the repository's 500-example
Hypothesis test yields 500, the fallback case yields 100, the count is
positive, and the totals of a concrete recorded ledger satisfy
total_test_scenarios >= total_tests. -/
theorem c10_example_count_witness :
    examplesOf itemPlain = 1 ∧
    examplesOf itemBothReqs = 500 ∧
    examplesOf itemHypFallback = 100 ∧
    1 ≤ examplesOf itemBothReqs ∧
    totalTestsOf (record itemBothReqs none [] initLedger).coverage
      ≤ totalExamplesOf (record itemBothReqs none [] initLedger).coverage := by
  refine ⟨(c10_example_count itemPlain []).1 rfl,
          (c10_example_count itemBothReqs []).2.1 500 rfl,
          (c10_example_count itemHypFallback []).2.2.1 rfl,
          (c10_example_count itemBothReqs []).2.2.2.1 ?_,
          (c10_example_count itemBothReqs
            (record itemBothReqs none [] initLedger).coverage).2.2.2.2 (by decide)⟩
  intro n h
  simp only [itemBothReqs, Option.some_inj] at h
  omega

end SimpleCoverage
